import Mathlib

/-!
Verification of the screenshot-cli comparison / merge / persistence core.

Shallow embedding of:
- `src/screenshotter.ts` (`ImageComparator`: `compareImages`,
  `determineChangeLevel`, `generateDiffImagePath`, `batchCompare`),
- `src/index.ts` (`mergeBeforeAfterResultsWithComparison`),
- `src/data-persistence.ts` (`DataPersistence.saveDataFile` result mapping,
  `resolveImagePaths`, and the JSONC writer's per-entry key structure).

Modelling conventions:
- JavaScript numbers are modelled as exact rationals (`ℚ`); `Math.round` is
  round-half-up (`Int.floor (q + 1/2)`).
- JavaScript string truthiness (`undefined` and `""` are falsy) is modelled by
  `truthyStr` on `Option String`.
- Filesystem paths handed to Node's `path.relative` / `path.resolve` are
  modelled as lists of segments of an absolute POSIX path.
- `pixelmatch` (external library) is abstracted by the pixel count it returns;
  file reads / PNG decoding (external `fs` / `pngjs`) are abstracted by taking
  decoded images as arguments, and by an abstract fallible comparator where
  the code catches comparison exceptions.
-/

/-- `ChangeLevel` enum (src/types.ts lines 31-38). -/
inductive ChangeLevel
  | none
  | minimal
  | minor
  | moderate
  | major
  | extreme
deriving DecidableEq, Repr

/-- Position of a change level in the enum's severity order. -/
def ChangeLevel.idx : ChangeLevel → Nat
  | ChangeLevel.none => 0
  | ChangeLevel.minimal => 1
  | ChangeLevel.minor => 2
  | ChangeLevel.moderate => 3
  | ChangeLevel.major => 4
  | ChangeLevel.extreme => 5

/-- JavaScript `Math.round`: round half toward positive infinity. -/
def jsRound (q : ℚ) : ℤ := Int.floor (q + 1/2)

/-- `Math.round(x * 100) / 100` (src/screenshotter.ts lines 211 and 255). -/
def round2 (q : ℚ) : ℚ := (jsRound (q * 100) : ℚ) / 100

/-- `ComparisonOptions` interface (src/types.ts lines 40-45). -/
structure ComparisonOptions where
  threshold : ℚ
  generateDiffImage : Bool
  ignoreAntialiasing : Bool
  minChangeThreshold : ℚ
deriving DecidableEq, Repr

/-- `ImageComparator.defaultOptions` (src/screenshotter.ts lines 175-180):
`threshold: 0.1, generateDiffImage: true, ignoreAntialiasing: false,
minChangeThreshold: 0.1`. -/
def defaultOptions : ComparisonOptions :=
  { threshold := 1/10
    generateDiffImage := true
    ignoreAntialiasing := false
    minChangeThreshold := 1/10 }

/-- `Partial<ComparisonOptions>`: each field optionally present. -/
structure PartialComparisonOptions where
  threshold : Option ℚ := Option.none
  generateDiffImage : Option Bool := Option.none
  ignoreAntialiasing : Option Bool := Option.none
  minChangeThreshold : Option ℚ := Option.none
deriving DecidableEq, Repr

/-- The spread merge `{ ...this.defaultOptions, ...options }`
(src/screenshotter.ts line 187): a field present in `options` overrides the
default, a missing field keeps the default. -/
def mergeOptions (options : PartialComparisonOptions) : ComparisonOptions :=
  { threshold := options.threshold.getD defaultOptions.threshold
    generateDiffImage := options.generateDiffImage.getD defaultOptions.generateDiffImage
    ignoreAntialiasing := options.ignoreAntialiasing.getD defaultOptions.ignoreAntialiasing
    minChangeThreshold := options.minChangeThreshold.getD defaultOptions.minChangeThreshold }

/-- `ComparisonResult` interface (src/types.ts lines 22-29). -/
structure ComparisonResult where
  diffPixels : Nat
  totalPixels : Nat
  diffPercentage : ℚ
  changeLevel : ChangeLevel
  diffImagePath : Option String
  hasSignificantChange : Bool
deriving DecidableEq, Repr

/-- `ImageComparator.determineChangeLevel` (src/screenshotter.ts lines 265-272). -/
def determineChangeLevel (diffPercentage : ℚ) : ChangeLevel :=
  if diffPercentage < 1/10 then ChangeLevel.none
  else if diffPercentage < 1 then ChangeLevel.minimal
  else if diffPercentage < 5 then ChangeLevel.minor
  else if diffPercentage < 15 then ChangeLevel.moderate
  else if diffPercentage < 50 then ChangeLevel.major
  else ChangeLevel.extreme

/-- The characters of the last `/`-separated segment of a path string. -/
def lastSegChars (l : List Char) : List Char :=
  (l.reverse.takeWhile (fun c => c != '/')).reverse

/-- Node `path.dirname` on the character list of a path: everything before the
last `/`, or `.` when there is no `/`. -/
def dirnameChars (l : List Char) : List Char :=
  match l.reverse.dropWhile (fun c => c != '/') with
  | [] => ['.']
  | _ :: t => t.reverse

/-- Node `path.dirname`. -/
def dirname (p : String) : String := String.mk (dirnameChars p.data)

/-- Node `path.basename(p, ext)`: the last segment, with the suffix `ext`
removed when the segment properly ends with it. -/
def basenameExt (p ext : String) : String :=
  let base := lastSegChars p.data
  if base ≠ ext.data ∧ ext.data.isSuffixOf base then
    String.mk (base.take (base.length - ext.data.length))
  else String.mk base

/-- Node `path.join(dir, name)` for a directory with no trailing slash. -/
def pathJoin (dir name : String) : String := dir ++ "/" ++ name

/-- `ImageComparator.generateDiffImagePath` (src/screenshotter.ts lines
274-278): `join(dirname(beforePath), basename(beforePath, ".png") ++
"_diff.png")`. -/
def generateDiffImagePath (beforePath : String) : String :=
  pathJoin (dirname beforePath) (basenameExt beforePath ".png" ++ "_diff.png")

/-- A decoded PNG raster, abstracted to its dimensions (the pixel data only
ever reaches the external `pixelmatch` library, which this model abstracts by
the count it returns). -/
structure PNGImage where
  width : Nat
  height : Nat
deriving DecidableEq, Repr

/-- `ImageComparator.compareImages` (src/screenshotter.ts lines 182-263) after
both images have been successfully read and decoded.  `pixelmatchCount` stands
for the number returned by the external `pixelmatch` call on the two
equal-sized buffers (lines 225-232); it is unused in the dimension-mismatch
branch, which never calls `pixelmatch`.  A `some` value of `diffImagePath` in
the result records exactly the case in which the source writes the diff PNG
to disk (lines 246-250). -/
def compareImages (beforePath : String) (beforeImg afterImg : PNGImage)
    (pixelmatchCount : Nat) (options : PartialComparisonOptions) : ComparisonResult :=
  let opts := mergeOptions options
  if beforeImg.width ≠ afterImg.width ∨ beforeImg.height ≠ afterImg.height then
    let beforePixels := beforeImg.width * beforeImg.height
    let afterPixels := afterImg.width * afterImg.height
    let pixelDifference := ((afterPixels : ℤ) - (beforePixels : ℤ)).natAbs
    let diffPercentage : ℚ := ((pixelDifference : ℚ) / (beforePixels : ℚ)) * 100
    let changeLevel := determineChangeLevel (max diffPercentage 15)
    { diffPixels := pixelDifference
      totalPixels := beforePixels
      diffPercentage := round2 diffPercentage
      changeLevel := changeLevel
      diffImagePath := Option.none
      hasSignificantChange := true }
  else
    let width := beforeImg.width
    let height := beforeImg.height
    let totalPixels := width * height
    let diffPixels := pixelmatchCount
    let diffPercentage : ℚ := ((diffPixels : ℚ) / (totalPixels : ℚ)) * 100
    let changeLevel := determineChangeLevel diffPercentage
    let hasSignificantChange := decide (diffPercentage ≥ opts.minChangeThreshold)
    let shouldGenerateDiffImage := opts.generateDiffImage &&
      (hasSignificantChange || decide (changeLevel = ChangeLevel.major) ||
        decide (changeLevel = ChangeLevel.moderate))
    { diffPixels := diffPixels
      totalPixels := totalPixels
      diffPercentage := round2 diffPercentage
      changeLevel := changeLevel
      diffImagePath :=
        if shouldGenerateDiffImage then some (generateDiffImagePath beforePath)
        else Option.none
      hasSignificantChange := hasSignificantChange }

/-- The neutral fallback verdict pushed for a failed pair
(src/screenshotter.ts lines 295-302). -/
def fallbackComparisonResult : ComparisonResult :=
  { diffPixels := 0
    totalPixels := 0
    diffPercentage := 0
    changeLevel := ChangeLevel.none
    diffImagePath := Option.none
    hasSignificantChange := false }

/-- `ImageComparator.batchCompare` (src/screenshotter.ts lines 283-307).
`cmp` abstracts the fallible `this.compareImages(beforePath, afterPath,
options)` call (it reads and decodes files, so it can throw); the source's
try/catch around each pair becomes the `match` on `Except`. The loop pushing
onto `results` is the fold appending one verdict per pair. -/
def batchCompare
    (cmp : String → String → PartialComparisonOptions → Except String ComparisonResult)
    (imagePairs : List (String × String))
    (options : PartialComparisonOptions) : List ComparisonResult :=
  imagePairs.foldl
    (fun results pair =>
      results ++ [match cmp pair.1 pair.2 options with
        | Except.ok r => r
        | Except.error _ => fallbackComparisonResult])
    []

/-- `ScreenshotResult` interface (src/types.ts lines 47-55), restricted to the
fields the before/after merge touches; `timestamp` is an abstract instant. -/
structure ScreenshotResult where
  url : String
  beforePath : Option String := Option.none
  afterPath : Option String := Option.none
  error : Option String := Option.none
  timestamp : Nat := 0
  comparison : Option ComparisonResult := Option.none
deriving DecidableEq, Repr

/-- JavaScript truthiness of an optional string: `undefined` and `""` are
falsy, every other string is truthy. -/
def truthyStr : Option String → Bool
  | Option.none => false
  | some s => s != ""

/-- JavaScript `a || b` on optional strings (src/index.ts line 438). -/
def jsOrStr (a b : Option String) : Option String :=
  if truthyStr a then a else b

/-- The loop body of `mergeBeforeAfterResultsWithComparison` (src/index.ts
lines 431-459) for one before outcome: find the first after outcome with the
same URL (line 432), build the merged record with
`error = beforeResult.error || afterResult?.error` (line 438), and attach the
comparison verdict only when both paths are truthy, the merged error is falsy
(line 443) and the fallible comparison call succeeds — the source's try/catch
drops the verdict when the comparison throws (lines 444-455).  `cmp` abstracts
the fallible `imageComparator.compareImages` call, with the comparison
options closed over. -/
def mergeOneResult (cmp : String → String → Except String ComparisonResult)
    (afterResults : List ScreenshotResult) (beforeResult : ScreenshotResult) :
    ScreenshotResult :=
  let afterResult := afterResults.find? (fun r => r.url == beforeResult.url)
  let result : ScreenshotResult :=
    { url := beforeResult.url
      beforePath := beforeResult.beforePath
      afterPath := afterResult.bind (fun r => r.afterPath)
      error := jsOrStr beforeResult.error (afterResult.bind (fun r => r.error))
      timestamp := beforeResult.timestamp
      comparison := Option.none }
  if truthyStr result.beforePath && truthyStr result.afterPath &&
      !(truthyStr result.error) then
    match cmp (result.beforePath.getD "") (result.afterPath.getD "") with
    | Except.ok comparison => { result with comparison := some comparison }
    | Except.error _ => result
  else result

/-- `mergeBeforeAfterResultsWithComparison` (src/index.ts lines 421-468): the
loop pushing one merged record per before outcome, in order.  Console logging
and the summary counts (lines 429, 452, 461-465) have no effect on the
returned list and are omitted. -/
def mergeBeforeAfterResultsWithComparison
    (cmp : String → String → Except String ComparisonResult)
    (beforeResults afterResults : List ScreenshotResult) : List ScreenshotResult :=
  beforeResults.foldl
    (fun merged beforeResult => merged ++ [mergeOneResult cmp afterResults beforeResult])
    []

/-- An absolute POSIX path, as its list of segments (`"/a/b/c"` is
`["a", "b", "c"]`, the root `"/"` is `[]`). -/
abbrev AbsPath := List String

/-- A path whose segments are genuine names: none is empty, `.` or `..`
(the form of every already-normalized absolute path). -/
def CleanPath (p : List String) : Prop :=
  ∀ s ∈ p, s ≠ "" ∧ s ≠ "." ∧ s ≠ ".."

instance (p : List String) : Decidable (CleanPath p) := by
  unfold CleanPath; infer_instance

/-- Node `path.relative(base, target)` for absolute normalized paths, on
segment lists: drop the shared leading segments, then one `..` per remaining
base segment followed by the remaining target segments. -/
def pathRelative : AbsPath → AbsPath → List String
  | [], target => target
  | a :: as, [] => List.replicate (a :: as).length ".."
  | a :: as, b :: bs =>
    if a = b then pathRelative as bs
    else List.replicate (a :: as).length ".." ++ (b :: bs)

/-- Segment normalization as performed by Node `path.resolve`: process
segments left to right against a stack; `..` pops (and is dropped at the
root), `.` and empty segments are dropped. -/
def normAux (stack : List String) : List String → List String
  | [] => stack
  | seg :: rest =>
    if seg = ".." then normAux stack.dropLast rest
    else if seg = "." ∨ seg = "" then normAux stack rest
    else normAux (stack ++ [seg]) rest

/-- Node `path.resolve(base, rel)` for an absolute `base` and a relative
`rel`, on segment lists. -/
def pathResolve (base : AbsPath) (rel : List String) : AbsPath :=
  normAux [] (base ++ rel)

/-- A `ComparisonResult` as carried by persisted results, with the diff-image
path in path-model form (segment list); `save` stores it relative, `resolve`
restores it absolute. -/
structure PersistComparison where
  diffPixels : Nat
  totalPixels : Nat
  diffPercentage : ℚ
  changeLevel : ChangeLevel
  diffImagePath : Option (List String)
  hasSignificantChange : Bool
deriving DecidableEq, Repr

/-- An in-memory `ScreenshotResult` as consumed by `DataPersistence`
(src/types.ts lines 47-55), with paths in path-model form. -/
structure PersistResult where
  url : String
  timestamp : Nat
  singlePath : Option AbsPath := Option.none
  beforePath : Option AbsPath := Option.none
  afterPath : Option AbsPath := Option.none
  error : Option String := Option.none
  comparison : Option PersistComparison := Option.none
deriving DecidableEq, Repr

/-- One entry of `DataFile.results` (src/types.ts lines 93-108).  Paths are
relative segment lists after `save`, absolute after `resolve`. -/
structure DataFileResult where
  url : String
  timestamp : Option Nat
  beforeTimestamp : Option Nat
  afterTimestamp : Option Nat
  singlePath : Option (List String)
  beforePath : Option (List String)
  afterPath : Option (List String)
  error : Option String
  beforeError : Option String
  afterError : Option String
  success : Bool
  beforeSuccess : Option Bool
  afterSuccess : Option Bool
  comparison : Option PersistComparison
deriving DecidableEq, Repr

/-- The per-result mapping inside `DataPersistence.saveDataFile`
(src/data-persistence.ts lines 51-71): timestamps and success flags are
emitted per present path, every path is made relative to
`dirname(dataFilePath)` (`baseDir` here), `success = !result.error`, and the
object literal carries no `beforeError` / `afterError` keys.  The JavaScript
truthiness tests on the absolute path strings are `isSome` here, because an
absolute path string is never empty. -/
def saveResultEntry (baseDir : AbsPath) (result : PersistResult) : DataFileResult :=
  { url := result.url
    timestamp := if result.singlePath.isSome then some result.timestamp else Option.none
    beforeTimestamp := if result.beforePath.isSome then some result.timestamp else Option.none
    afterTimestamp := if result.afterPath.isSome then some result.timestamp else Option.none
    singlePath := result.singlePath.map (pathRelative baseDir)
    beforePath := result.beforePath.map (pathRelative baseDir)
    afterPath := result.afterPath.map (pathRelative baseDir)
    error := result.error
    beforeError := Option.none
    afterError := Option.none
    success := !(truthyStr result.error)
    beforeSuccess :=
      if result.beforePath.isSome then some (!(truthyStr result.error)) else Option.none
    afterSuccess :=
      if result.afterPath.isSome then some (!(truthyStr result.error)) else Option.none
    comparison := result.comparison.map
      (fun c => { c with diffImagePath := c.diffImagePath.map (pathRelative baseDir) }) }

/-- One stored path field under `DataPersistence.resolveImagePaths`
(src/data-persistence.ts lines 111-119): `p ? path.resolve(baseDir, p) :
undefined`, where an empty relative path string is falsy. -/
def resolveField (baseDir : AbsPath) : Option (List String) → Option (List String)
  | some p => if p = [] then Option.none else some (pathResolve baseDir p)
  | Option.none => Option.none

/-- The per-result mapping inside `DataPersistence.resolveImagePaths`
(src/data-persistence.ts lines 104-124). -/
def resolveResultEntry (baseDir : AbsPath) (result : DataFileResult) : DataFileResult :=
  { result with
    singlePath := resolveField baseDir result.singlePath
    beforePath := resolveField baseDir result.beforePath
    afterPath := resolveField baseDir result.afterPath
    comparison := result.comparison.map
      (fun c => { c with diffImagePath := resolveField baseDir c.diffImagePath }) }

/-- Truthiness of a stored relative path in the JSONC writer's conditionals:
absent or empty is falsy. -/
def truthyPath : Option (List String) → Bool
  | Option.none => false
  | some p => !(p.isEmpty)

/-- The JSON keys emitted, in order, for one `results` entry by the
before/after branch of `DataPersistence.generateJSONCContent`
(src/data-persistence.ts lines 197-233): the template unconditionally writes
`url`, `beforeTimestamp`, `afterTimestamp`, `beforePath`, `afterPath`,
`beforeSuccess`, `afterSuccess` and `success`; it writes `beforeError` /
`afterError` only when those fields are truthy, and a `comparison` block
(with `diffImagePath` only when present) when `comparison` is set.  No
`error` key appears anywhere in this branch of the template. -/
def serializedKeysBA (result : DataFileResult) : List String :=
  ["url", "beforeTimestamp", "afterTimestamp", "beforePath", "afterPath",
   "beforeSuccess", "afterSuccess", "success"] ++
  (if truthyStr result.beforeError then ["beforeError"] else []) ++
  (if truthyStr result.afterError then ["afterError"] else []) ++
  (match result.comparison with
   | some c =>
     ["comparison", "diffPixels", "totalPixels", "diffPercentage",
      "changeLevel", "hasSignificantChange"] ++
     (if truthyPath c.diffImagePath then ["diffImagePath"] else [])
   | Option.none => [])

/-- The JSON keys emitted for one `results` entry by the single-mode branch of
`DataPersistence.generateJSONCContent` (src/data-persistence.ts lines
184-195): `url`, `timestamp`, `singlePath`, `success`, and `error` only when
truthy.  Only this branch ever writes an `error` key. -/
def serializedKeysSingle (result : DataFileResult) : List String :=
  ["url", "timestamp", "singlePath", "success"] ++
  (if truthyStr result.error then ["error"] else [])

/-- C1: `determineChangeLevel` realizes the fixed half-open breakpoints
`[0,0.1)→none, [0.1,1)→minimal, [1,5)→minor, [5,15)→moderate, [15,50)→major,
[50,∞)→extreme`; the six intervals partition `[0,∞)` with no gaps or
overlaps, and the classifier is monotonic. -/
theorem determineChangeLevel_breakpoints_and_monotone :
    (∀ p : ℚ, 0 ≤ p →
      ((determineChangeLevel p = ChangeLevel.none ↔ p < 1/10) ∧
       (determineChangeLevel p = ChangeLevel.minimal ↔ 1/10 ≤ p ∧ p < 1) ∧
       (determineChangeLevel p = ChangeLevel.minor ↔ 1 ≤ p ∧ p < 5) ∧
       (determineChangeLevel p = ChangeLevel.moderate ↔ 5 ≤ p ∧ p < 15) ∧
       (determineChangeLevel p = ChangeLevel.major ↔ 15 ≤ p ∧ p < 50) ∧
       (determineChangeLevel p = ChangeLevel.extreme ↔ 50 ≤ p))) ∧
    (∀ p q : ℚ, 0 ≤ p → p ≤ q →
      (determineChangeLevel p).idx ≤ (determineChangeLevel q).idx) := by
  constructor
  · intro p _
    unfold determineChangeLevel
    split_ifs with h1 h2 h3 h4 h5 <;>
      refine ⟨?_, ?_, ?_, ?_, ?_, ?_⟩ <;>
      constructor <;> intro h <;>
      first
        | rfl
        | (exfalso; revert h; simp) <;> linarith
        | (constructor <;> linarith)
        | linarith
  · intro p q _ hpq
    unfold determineChangeLevel
    split_ifs <;> simp [ChangeLevel.idx] <;> linarith

theorem determineChangeLevel_breakpoints_witness :
    ((0:ℚ) ≤ 7 ∧ (determineChangeLevel 7 = ChangeLevel.moderate ↔ 5 ≤ (7:ℚ) ∧ (7:ℚ) < 15)) ∧
    ((0:ℚ) ≤ 7 ∧ (7:ℚ) ≤ 20 ∧
      (determineChangeLevel 7).idx ≤ (determineChangeLevel 20).idx) :=
  ⟨⟨by norm_num,
    (determineChangeLevel_breakpoints_and_monotone.1 7 (by norm_num)).2.2.2.1⟩,
   by norm_num, by norm_num,
   determineChangeLevel_breakpoints_and_monotone.2 7 20 (by norm_num) (by norm_num)⟩

/-- C2 (amended): for equal dimensions, `compareImages` returns
`diffPixels` = the pixelmatch count, `totalPixels = width * height`,
`diffPercentage = round2(diffPixels / totalPixels * 100)`, and
`hasSignificantChange = (raw >= minChangeThreshold)` where `raw` is the
UNROUNDED percentage (src/screenshotter.ts line 236 reads the value computed
at line 234, before the rounding applied at line 255). -/
theorem compareImages_equalDims_fields
    (beforePath : String) (beforeImg afterImg : PNGImage)
    (pm : Nat) (options : PartialComparisonOptions)
    (hw : beforeImg.width = afterImg.width) (hh : beforeImg.height = afterImg.height) :
    (compareImages beforePath beforeImg afterImg pm options).diffPixels = pm ∧
    (compareImages beforePath beforeImg afterImg pm options).totalPixels =
      beforeImg.width * beforeImg.height ∧
    (compareImages beforePath beforeImg afterImg pm options).diffPercentage =
      round2 ((pm : ℚ) / ((beforeImg.width * beforeImg.height : Nat) : ℚ) * 100) ∧
    (compareImages beforePath beforeImg afterImg pm options).hasSignificantChange =
      decide ((pm : ℚ) / ((beforeImg.width * beforeImg.height : Nat) : ℚ) * 100 ≥
        (mergeOptions options).minChangeThreshold) := by
  unfold compareImages
  rw [if_neg (by simp [hw, hh])]
  simp

theorem compareImages_equalDims_fields_witness :
    ((⟨100, 100⟩ : PNGImage).width = (⟨100, 100⟩ : PNGImage).width ∧
     (⟨100, 100⟩ : PNGImage).height = (⟨100, 100⟩ : PNGImage).height) ∧
    ((compareImages "b.png" ⟨100, 100⟩ ⟨100, 100⟩ 1000 {}).diffPixels = 1000 ∧
     (compareImages "b.png" ⟨100, 100⟩ ⟨100, 100⟩ 1000 {}).totalPixels = 100 * 100 ∧
     (compareImages "b.png" ⟨100, 100⟩ ⟨100, 100⟩ 1000 {}).diffPercentage =
       round2 (((1000 : Nat) : ℚ) / ((100 * 100 : Nat) : ℚ) * 100) ∧
     (compareImages "b.png" ⟨100, 100⟩ ⟨100, 100⟩ 1000 {}).hasSignificantChange =
       decide (((1000 : Nat) : ℚ) / ((100 * 100 : Nat) : ℚ) * 100 ≥
         (mergeOptions {}).minChangeThreshold)) :=
  ⟨⟨rfl, rfl⟩, compareImages_equalDims_fields "b.png" ⟨100, 100⟩ ⟨100, 100⟩ 1000 {} rfl rfl⟩

/-- C2 (counterexample to the claim as stated): with the default
`minChangeThreshold = 0.1`, two 1000x100 images with 96 differing pixels give
a raw percentage of 0.096, which rounds to the stored `diffPercentage = 0.1`;
the stored value satisfies `diffPercentage >= minChangeThreshold`, yet the
verdict carries `hasSignificantChange = false`, because the source tests the
unrounded 0.096. -/
theorem compareImages_significance_not_on_rounded :
    (compareImages "b.png" ⟨1000, 100⟩ ⟨1000, 100⟩ 96 {}).hasSignificantChange = false ∧
    (compareImages "b.png" ⟨1000, 100⟩ ⟨1000, 100⟩ 96 {}).diffPercentage ≥
      (mergeOptions {}).minChangeThreshold := by
  unfold compareImages
  rw [if_neg (by simp)]
  constructor
  · simp only []
    norm_num [mergeOptions, defaultOptions]
  · simp only []
    norm_num [mergeOptions, defaultOptions, round2, jsRound]

/-- C3 (amended): on a dimension mismatch, `compareImages` returns
`diffPixels = |afterPixels - beforePixels|`, `totalPixels = beforePixels`,
`diffPercentage = round2(raw)`, `changeLevel = classify(max(raw, 15))` where
`raw` is the UNROUNDED percentage (src/screenshotter.ts line 206 classifies
the value computed at line 205, before the rounding applied at line 211),
`hasSignificantChange = true`, and no diff-image path. -/
theorem compareImages_dimMismatch_fields
    (beforePath : String) (beforeImg afterImg : PNGImage)
    (pm : Nat) (options : PartialComparisonOptions)
    (hd : beforeImg.width ≠ afterImg.width ∨ beforeImg.height ≠ afterImg.height) :
    (compareImages beforePath beforeImg afterImg pm options).diffPixels =
      (((afterImg.width * afterImg.height : Nat) : ℤ) -
        ((beforeImg.width * beforeImg.height : Nat) : ℤ)).natAbs ∧
    (compareImages beforePath beforeImg afterImg pm options).totalPixels =
      beforeImg.width * beforeImg.height ∧
    (compareImages beforePath beforeImg afterImg pm options).diffPercentage =
      round2 ((((((afterImg.width * afterImg.height : Nat) : ℤ) -
          ((beforeImg.width * beforeImg.height : Nat) : ℤ)).natAbs : Nat) : ℚ) /
        ((beforeImg.width * beforeImg.height : Nat) : ℚ) * 100) ∧
    (compareImages beforePath beforeImg afterImg pm options).changeLevel =
      determineChangeLevel (max ((((((afterImg.width * afterImg.height : Nat) : ℤ) -
          ((beforeImg.width * beforeImg.height : Nat) : ℤ)).natAbs : Nat) : ℚ) /
        ((beforeImg.width * beforeImg.height : Nat) : ℚ) * 100) 15) ∧
    (compareImages beforePath beforeImg afterImg pm options).hasSignificantChange = true ∧
    (compareImages beforePath beforeImg afterImg pm options).diffImagePath = Option.none := by
  unfold compareImages
  rw [if_pos hd]
  simp

theorem compareImages_dimMismatch_fields_witness :
    ((⟨10, 10⟩ : PNGImage).width ≠ (⟨20, 10⟩ : PNGImage).width ∨
     (⟨10, 10⟩ : PNGImage).height ≠ (⟨20, 10⟩ : PNGImage).height) ∧
    ((compareImages "b.png" ⟨10, 10⟩ ⟨20, 10⟩ 0 {}).diffPixels =
       (((20 * 10 : Nat) : ℤ) - ((10 * 10 : Nat) : ℤ)).natAbs ∧
     (compareImages "b.png" ⟨10, 10⟩ ⟨20, 10⟩ 0 {}).totalPixels = 10 * 10 ∧
     (compareImages "b.png" ⟨10, 10⟩ ⟨20, 10⟩ 0 {}).diffPercentage =
       round2 ((((((20 * 10 : Nat) : ℤ) - ((10 * 10 : Nat) : ℤ)).natAbs : Nat) : ℚ) /
         ((10 * 10 : Nat) : ℚ) * 100) ∧
     (compareImages "b.png" ⟨10, 10⟩ ⟨20, 10⟩ 0 {}).changeLevel =
       determineChangeLevel (max ((((((20 * 10 : Nat) : ℤ) -
           ((10 * 10 : Nat) : ℤ)).natAbs : Nat) : ℚ) / ((10 * 10 : Nat) : ℚ) * 100) 15) ∧
     (compareImages "b.png" ⟨10, 10⟩ ⟨20, 10⟩ 0 {}).hasSignificantChange = true ∧
     (compareImages "b.png" ⟨10, 10⟩ ⟨20, 10⟩ 0 {}).diffImagePath = Option.none) :=
  ⟨Or.inl (by decide),
   compareImages_dimMismatch_fields "b.png" ⟨10, 10⟩ ⟨20, 10⟩ 0 {} (Or.inl (by decide))⟩

/-- C3 (counterexample to the claim as stated): before 200x100 (20000 px),
after 131x229 (29999 px) gives a raw percentage of 49.995, so the verdict
stores `diffPercentage = round2(49.995) = 50`, but the source classifies the
unrounded 49.995 and returns `major`, while the claim's
`classify(max(diffPercentage, 15.0))` applied to the stored field yields
`extreme`. -/
theorem compareImages_dimMismatch_classify_not_rounded :
    (compareImages "b.png" ⟨200, 100⟩ ⟨131, 229⟩ 0 {}).diffPercentage = 50 ∧
    (compareImages "b.png" ⟨200, 100⟩ ⟨131, 229⟩ 0 {}).changeLevel = ChangeLevel.major ∧
    determineChangeLevel
      (max (compareImages "b.png" ⟨200, 100⟩ ⟨131, 229⟩ 0 {}).diffPercentage 15) =
      ChangeLevel.extreme := by
  unfold compareImages
  rw [if_pos (Or.inl (by decide))]
  refine ⟨?_, ?_, ?_⟩
  · simp only []
    norm_num [round2, jsRound]
  · simp only []
    norm_num [determineChangeLevel, round2, jsRound, max_def]
  · simp only []
    norm_num [determineChangeLevel, round2, jsRound, max_def]

/-- C4 (counterexample to the claim as stated): before 10x10, after 9x10 is a
dimension mismatch with raw percentage 10; the verdict stores
`diffPercentage = 10` yet `changeLevel = major` (the source classifies
`max(10, 15) = 15`), while `classify(10) = moderate`; so `changeLevel` is not
a function of the verdict's `diffPercentage` field. -/
theorem changeLevel_not_function_of_diffPercentage :
    (compareImages "b.png" ⟨10, 10⟩ ⟨9, 10⟩ 0 {}).diffPercentage = 10 ∧
    (compareImages "b.png" ⟨10, 10⟩ ⟨9, 10⟩ 0 {}).changeLevel = ChangeLevel.major ∧
    determineChangeLevel ((compareImages "b.png" ⟨10, 10⟩ ⟨9, 10⟩ 0 {}).diffPercentage) =
      ChangeLevel.moderate := by
  unfold compareImages
  rw [if_pos (Or.inl (by decide))]
  refine ⟨?_, ?_, ?_⟩
  · simp only []
    norm_num [round2, jsRound]
  · simp only []
    norm_num [determineChangeLevel, round2, jsRound, max_def]
  · simp only []
    norm_num [determineChangeLevel, round2, jsRound, max_def]

/-- C4 (amended): in every verdict, `changeLevel` is `determineChangeLevel`
applied to the UNROUNDED raw percentage — `max(raw, 15)` in the
dimension-mismatch branch, `raw` in the equal-dimension branch — not to the
rounded `diffPercentage` field the verdict carries. -/
theorem compareImages_changeLevel_of_raw
    (beforePath : String) (beforeImg afterImg : PNGImage)
    (pm : Nat) (options : PartialComparisonOptions) :
    (compareImages beforePath beforeImg afterImg pm options).changeLevel =
      if beforeImg.width ≠ afterImg.width ∨ beforeImg.height ≠ afterImg.height then
        determineChangeLevel (max ((((((afterImg.width * afterImg.height : Nat) : ℤ) -
            ((beforeImg.width * beforeImg.height : Nat) : ℤ)).natAbs : Nat) : ℚ) /
          ((beforeImg.width * beforeImg.height : Nat) : ℚ) * 100) 15)
      else
        determineChangeLevel ((pm : ℚ) /
          ((beforeImg.width * beforeImg.height : Nat) : ℚ) * 100) := by
  unfold compareImages
  split <;> simp

theorem strDataAppend (s t : String) : (s ++ t).data = s.data ++ t.data := rfl

theorem dataEqNil (s : String) (h : s ≠ "") : s.data ≠ [] := by
  intro hc
  exact h (String.ext hc)

theorem takeWhileSeg (l1 l2 : List Char) (h : '/' ∉ l1) :
    (l1 ++ '/' :: l2).takeWhile (fun c => c != '/') = l1 := by
  induction l1 with
  | nil => simp [List.takeWhile_cons]
  | cons a t ih =>
    simp only [List.mem_cons, not_or] at h
    have ha : ¬(a = '/') := fun hc => h.1 hc.symm
    rw [List.cons_append, List.takeWhile_cons]
    rw [if_pos (by simpa using ha), ih h.2]

theorem dropWhileSeg (l1 l2 : List Char) (h : '/' ∉ l1) :
    (l1 ++ '/' :: l2).dropWhile (fun c => c != '/') = '/' :: l2 := by
  induction l1 with
  | nil => simp [List.dropWhile_cons]
  | cons a t ih =>
    simp only [List.mem_cons, not_or] at h
    have ha : ¬(a = '/') := fun hc => h.1 hc.symm
    rw [List.cons_append, List.dropWhile_cons]
    rw [if_pos (by simpa using ha), ih h.2]

theorem lastSegChars_concat (dir rest : String) (hrl : '/' ∉ rest.data) :
    lastSegChars (dir ++ "/" ++ rest).data = rest.data := by
  have hdata : (dir ++ "/" ++ rest).data.reverse =
      rest.data.reverse ++ '/' :: dir.data.reverse := by
    simp [strDataAppend]
  unfold lastSegChars
  rw [hdata, takeWhileSeg _ _ (by simpa using hrl), List.reverse_reverse]

theorem dirnameChars_concat (dir rest : String) (hrl : '/' ∉ rest.data) :
    dirnameChars (dir ++ "/" ++ rest).data = dir.data := by
  have hdata : (dir ++ "/" ++ rest).data.reverse =
      rest.data.reverse ++ '/' :: dir.data.reverse := by
    simp [strDataAppend]
  unfold dirnameChars
  rw [hdata, dropWhileSeg _ _ (by simpa using hrl)]
  simp

theorem generateDiffImagePath_spec (dir stem : String)
    (hs : stem ≠ "") (hsl : '/' ∉ stem.data) :
    generateDiffImagePath (dir ++ "/" ++ stem ++ ".png") =
      dir ++ "/" ++ stem ++ "_diff.png" := by
  have hnoslash : '/' ∉ (stem ++ ".png").data := by
    rw [strDataAppend]
    simp only [List.mem_append, not_or]
    exact ⟨hsl, by decide⟩
  have hassoc : (dir ++ "/" ++ stem ++ ".png") = (dir ++ "/" ++ (stem ++ ".png")) := by
    apply String.ext
    simp [strDataAppend]
  have hlast : lastSegChars (dir ++ "/" ++ stem ++ ".png").data = stem.data ++ ".png".data := by
    rw [hassoc, lastSegChars_concat dir (stem ++ ".png") hnoslash, strDataAppend]
  have hbase : basenameExt (dir ++ "/" ++ stem ++ ".png") ".png" = stem := by
    unfold basenameExt
    rw [hlast]
    rw [if_pos ?hc]
    case hc =>
      refine ⟨?_, ?_⟩
      · intro hc
        have hlen := congrArg List.length hc
        simp only [List.length_append] at hlen
        have : stem.data.length = 0 := by omega
        exact hs (String.ext (List.length_eq_zero.mp this))
      · exact List.isSuffixOf_iff_suffix.mpr ⟨stem.data, rfl⟩
    have hlen : (stem.data ++ ".png".data).length - ".png".data.length = stem.data.length := by
      simp [List.length_append]
    rw [hlen, List.take_left]
  have hdir : dirname (dir ++ "/" ++ stem ++ ".png") = dir := by
    unfold dirname
    rw [hassoc, dirnameChars_concat dir (stem ++ ".png") hnoslash]
  unfold generateDiffImagePath pathJoin
  rw [hbase, hdir]
  apply String.ext
  simp [strDataAppend, List.append_assoc]

/-- C5 (amended): for equal dimensions, a diff image is written (equivalently,
the verdict carries a `diffImagePath`) iff `generateDiffImage` is on AND
(`hasSignificantChange` OR the change level is `major` or `moderate` — the
source's condition at src/screenshotter.ts lines 241-244 does NOT include
`extreme`); when written, the path is the before image's directory and stem
suffixed `_diff` with the `.png` extension. -/
theorem compareImages_diffImagePath_policy
    (beforePath : String) (beforeImg afterImg : PNGImage)
    (pm : Nat) (options : PartialComparisonOptions)
    (hw : beforeImg.width = afterImg.width) (hh : beforeImg.height = afterImg.height) :
    ((compareImages beforePath beforeImg afterImg pm options).diffImagePath =
      if ((mergeOptions options).generateDiffImage &&
          ((compareImages beforePath beforeImg afterImg pm options).hasSignificantChange ||
           decide ((compareImages beforePath beforeImg afterImg pm options).changeLevel =
             ChangeLevel.major) ||
           decide ((compareImages beforePath beforeImg afterImg pm options).changeLevel =
             ChangeLevel.moderate)))
      then some (generateDiffImagePath beforePath) else Option.none) ∧
    (∀ dir stem : String, stem ≠ "" → '/' ∉ stem.data →
      generateDiffImagePath (dir ++ "/" ++ stem ++ ".png") =
        dir ++ "/" ++ stem ++ "_diff.png") := by
  constructor
  · unfold compareImages
    rw [if_neg (by simp [hw, hh])]
  · intro dir stem hs hsl
    exact generateDiffImagePath_spec dir stem hs hsl

theorem compareImages_diffImagePath_policy_witness :
    ((⟨100, 100⟩ : PNGImage).width = (⟨100, 100⟩ : PNGImage).width ∧
     (⟨100, 100⟩ : PNGImage).height = (⟨100, 100⟩ : PNGImage).height ∧
     "page" ≠ "" ∧ '/' ∉ "page".data) ∧
    ((compareImages "shots/page.png" ⟨100, 100⟩ ⟨100, 100⟩ 1000 {}).diffImagePath =
      if ((mergeOptions {}).generateDiffImage &&
          ((compareImages "shots/page.png" ⟨100, 100⟩ ⟨100, 100⟩ 1000 {}).hasSignificantChange ||
           decide ((compareImages "shots/page.png" ⟨100, 100⟩ ⟨100, 100⟩ 1000 {}).changeLevel =
             ChangeLevel.major) ||
           decide ((compareImages "shots/page.png" ⟨100, 100⟩ ⟨100, 100⟩ 1000 {}).changeLevel =
             ChangeLevel.moderate)))
      then some (generateDiffImagePath "shots/page.png") else Option.none) ∧
    generateDiffImagePath ("shots" ++ "/" ++ "page" ++ ".png") =
      "shots" ++ "/" ++ "page" ++ "_diff.png" :=
  ⟨⟨rfl, rfl, by decide, by decide⟩,
   (compareImages_diffImagePath_policy "shots/page.png" ⟨100, 100⟩ ⟨100, 100⟩ 1000 {}
     rfl rfl).1,
   (compareImages_diffImagePath_policy "shots/page.png" ⟨100, 100⟩ ⟨100, 100⟩ 1000 {}
     rfl rfl).2 "shots" "page" (by decide) (by decide)⟩

/-- C5 (counterexample to the claim as stated): two 10x10 images with 55
differing pixels and `minChangeThreshold = 60` give `changeLevel = extreme`
and `hasSignificantChange = false`; `generateDiffImage` defaults to true, yet
no diff image is written, because the source's write condition checks only
`major` and `moderate`, not `extreme`. -/
theorem compareImages_diffImage_extreme_not_written :
    (mergeOptions { minChangeThreshold := some 60 }).generateDiffImage = true ∧
    (compareImages "b.png" ⟨10, 10⟩ ⟨10, 10⟩ 55
      { minChangeThreshold := some 60 }).changeLevel = ChangeLevel.extreme ∧
    (compareImages "b.png" ⟨10, 10⟩ ⟨10, 10⟩ 55
      { minChangeThreshold := some 60 }).hasSignificantChange = false ∧
    (compareImages "b.png" ⟨10, 10⟩ ⟨10, 10⟩ 55
      { minChangeThreshold := some 60 }).diffImagePath = Option.none := by
  refine ⟨rfl, ?_, ?_, ?_⟩ <;>
    · unfold compareImages
      rw [if_neg (by simp)]
      simp only []
      norm_num [mergeOptions, defaultOptions, determineChangeLevel, round2, jsRound]
      try simp

/-- C6 (counterexample to the claim as stated): the constructor's default for
`minChangeThreshold` is 0.1 (src/screenshotter.ts line 179), not the claimed
0.5: merging an empty options object yields `minChangeThreshold = 0.1`. -/
theorem mergeOptions_minChangeThreshold_default :
    (mergeOptions {}).minChangeThreshold = 1/10 ∧ ((1 : ℚ)/10 ≠ 1/2) :=
  ⟨rfl, by norm_num⟩

/-- C6 (amended): merging a partial options object fills every missing field
with the documented defaults `threshold = 0.1`, `minChangeThreshold = 0.1`,
`generateDiffImage = true`, `ignoreAntialiasing = false`, before the
comparison runs. -/
theorem mergeOptions_fills_defaults (options : PartialComparisonOptions) :
    mergeOptions options =
      { threshold := options.threshold.getD (1/10)
        generateDiffImage := options.generateDiffImage.getD true
        ignoreAntialiasing := options.ignoreAntialiasing.getD false
        minChangeThreshold := options.minChangeThreshold.getD (1/10) } := rfl

theorem foldlAppendEqMap {α β : Type} (f : α → β) (l : List α) (acc : List β) :
    l.foldl (fun r a => r ++ [f a]) acc = acc ++ l.map f := by
  induction l generalizing acc with
  | nil => simp
  | cons a t ih => simp [List.foldl_cons, ih]

/-- A comparator that always fails, standing for a pair whose files cannot be
read or decoded. -/
def cmpAlwaysFails : String → String → Except String ComparisonResult :=
  fun _ _ => Except.error "Image comparison failed: decode error"

/-- C7 (counterexample to the claim as stated): one before outcome with a
path and no error, one matching after outcome with a path and no error, and a
comparison call that throws: both paths are present and the merged error is
absent, yet no comparison verdict is attached, because the source catches the
comparison failure and leaves `comparison` unset. -/
theorem mergeBA_no_verdict_on_comparison_failure :
    ((mergeBeforeAfterResultsWithComparison cmpAlwaysFails
        [{ url := "u", beforePath := some "b.png" }]
        [{ url := "u", afterPath := some "a.png" }]).headD { url := "" }).beforePath =
      some "b.png" ∧
    ((mergeBeforeAfterResultsWithComparison cmpAlwaysFails
        [{ url := "u", beforePath := some "b.png" }]
        [{ url := "u", afterPath := some "a.png" }]).headD { url := "" }).afterPath =
      some "a.png" ∧
    ((mergeBeforeAfterResultsWithComparison cmpAlwaysFails
        [{ url := "u", beforePath := some "b.png" }]
        [{ url := "u", afterPath := some "a.png" }]).headD { url := "" }).error =
      Option.none ∧
    ((mergeBeforeAfterResultsWithComparison cmpAlwaysFails
        [{ url := "u", beforePath := some "b.png" }]
        [{ url := "u", afterPath := some "a.png" }]).headD { url := "" }).comparison =
      Option.none := ⟨rfl, rfl, rfl, rfl⟩

/-- C7 (amended): the merge returns one record per before outcome, in order;
each record pairs the before outcome with the first after outcome of the same
URL, carries `beforePath` from the before outcome and `afterPath` from the
paired after outcome, takes the before outcome's error when truthy and
otherwise the paired after outcome's error; and a comparison verdict is
attached if and only if both paths are present (truthy), the merged error is
absent, AND the comparison call itself succeeds — a failed comparison leaves
the verdict unattached. -/
theorem mergeBA_spec :
    (∀ (cmp : String → String → Except String ComparisonResult)
        (beforeResults afterResults : List ScreenshotResult),
      mergeBeforeAfterResultsWithComparison cmp beforeResults afterResults =
        beforeResults.map (mergeOneResult cmp afterResults)) ∧
    (∀ (cmp : String → String → Except String ComparisonResult)
        (afterResults : List ScreenshotResult) (b : ScreenshotResult),
      (mergeOneResult cmp afterResults b).url = b.url ∧
      (mergeOneResult cmp afterResults b).beforePath = b.beforePath ∧
      (mergeOneResult cmp afterResults b).afterPath =
        (afterResults.find? (fun r => r.url == b.url)).bind (fun r => r.afterPath) ∧
      (mergeOneResult cmp afterResults b).error =
        jsOrStr b.error ((afterResults.find? (fun r => r.url == b.url)).bind (fun r => r.error)) ∧
      (∀ c : ComparisonResult,
        (mergeOneResult cmp afterResults b).comparison = some c ↔
          (truthyStr (mergeOneResult cmp afterResults b).beforePath = true ∧
           truthyStr (mergeOneResult cmp afterResults b).afterPath = true ∧
           truthyStr (mergeOneResult cmp afterResults b).error = false ∧
           cmp ((mergeOneResult cmp afterResults b).beforePath.getD "")
               ((mergeOneResult cmp afterResults b).afterPath.getD "") = Except.ok c))) := by
  constructor
  · intro cmp beforeResults afterResults
    unfold mergeBeforeAfterResultsWithComparison
    simpa using foldlAppendEqMap (mergeOneResult cmp afterResults) beforeResults []
  · intro cmp afterResults b
    unfold mergeOneResult
    by_cases hcond :
        (truthyStr b.beforePath &&
          truthyStr ((afterResults.find? (fun r => r.url == b.url)).bind (fun r => r.afterPath)) &&
          !(truthyStr (jsOrStr b.error
            ((afterResults.find? (fun r => r.url == b.url)).bind (fun r => r.error))))) = true
    · simp only [hcond, if_true]
      rcases hcmp : cmp (b.beforePath.getD "")
          (((afterResults.find? (fun r => r.url == b.url)).bind (fun r => r.afterPath)).getD "") with e | v
      all_goals
        simp only [Bool.and_eq_true, Bool.not_eq_eq_eq_not, Bool.not_true] at hcond
        simp [hcmp, hcond.1.1, hcond.1.2, hcond.2]
    · rw [if_neg hcond]
      refine ⟨rfl, rfl, rfl, rfl, fun c => ?_⟩
      constructor
      · intro h
        exact Option.noConfusion h
      · rintro ⟨h1, h2, h3, _⟩
        exfalso
        apply hcond
        rw [Bool.and_eq_true, Bool.and_eq_true]
        exact ⟨⟨h1, h2⟩, by rw [show truthyStr (jsOrStr b.error
          ((afterResults.find? (fun r => r.url == b.url)).bind (fun r => r.error))) =
            false from h3]; rfl⟩

/-- A comparator for the three-pair scenario: the second pair's after file
does not exist, so its comparison throws; the other pairs compare two decoded
10x10 images. -/
def cmpSecondMissing (beforePath afterPath : String)
    (options : PartialComparisonOptions) : Except String ComparisonResult :=
  if afterPath = "after2.png" then
    Except.error "Image comparison failed: ENOENT: no such file or directory"
  else
    Except.ok (compareImages beforePath ⟨10, 10⟩ ⟨10, 10⟩ 0 options)

/-- C8: `batchCompare` returns exactly one verdict per input pair, in order: a
pair whose comparison fails yields the neutral fallback verdict
(`diffPixels = 0`, `totalPixels = 0`, `diffPercentage = 0`,
`changeLevel = none`, no diff-image path, `hasSignificantChange = false`),
and every other pair's verdict is exactly what the comparison alone produces;
in particular, over three pairs whose second after file is missing, three
verdicts come back and only the second is the fallback. -/
theorem batchCompare_isolates_failures :
    (∀ (cmp : String → String → PartialComparisonOptions → Except String ComparisonResult)
        (imagePairs : List (String × String)) (options : PartialComparisonOptions),
      batchCompare cmp imagePairs options =
        imagePairs.map (fun pair =>
          match cmp pair.1 pair.2 options with
          | Except.ok r => r
          | Except.error _ => fallbackComparisonResult)) ∧
    fallbackComparisonResult =
      { diffPixels := 0, totalPixels := 0, diffPercentage := 0,
        changeLevel := ChangeLevel.none, diffImagePath := Option.none,
        hasSignificantChange := false } ∧
    batchCompare cmpSecondMissing
        [("before1.png", "after1.png"), ("before2.png", "after2.png"),
         ("before3.png", "after3.png")] {} =
      [compareImages "before1.png" ⟨10, 10⟩ ⟨10, 10⟩ 0 {},
       fallbackComparisonResult,
       compareImages "before3.png" ⟨10, 10⟩ ⟨10, 10⟩ 0 {}] := by
  refine ⟨?_, rfl, rfl⟩
  intro cmp imagePairs options
  unfold batchCompare
  simpa using foldlAppendEqMap
    (fun pair : String × String =>
      match cmp pair.1 pair.2 options with
      | Except.ok r => r
      | Except.error _ => fallbackComparisonResult) imagePairs []

theorem normAux_cons_clean (a : String) (ha : a ≠ "" ∧ a ≠ "." ∧ a ≠ "..")
    (st rest : List String) :
    normAux st (a :: rest) = normAux (st ++ [a]) rest := by
  conv_lhs => rw [normAux]
  rw [if_neg ha.2.2, if_neg (by push_neg; exact ⟨ha.2.1, ha.1⟩)]

theorem normAux_dotdot (st rest : List String) :
    normAux st (".." :: rest) = normAux st.dropLast rest := by
  conv_lhs => rw [normAux]
  rw [if_pos rfl]

theorem normAux_append_clean (l : List String) (h : CleanPath l) :
    ∀ st rest : List String, normAux st (l ++ rest) = normAux (st ++ l) rest := by
  induction l with
  | nil => intro st rest; simp
  | cons a t ih =>
    intro st rest
    have ha := h a (List.mem_cons_self a t)
    rw [List.cons_append, normAux_cons_clean a ha st (t ++ rest)]
    rw [ih (fun s hs => h s (List.mem_cons_of_mem a hs)) (st ++ [a]) rest]
    have : (st ++ [a]) ++ t = st ++ a :: t := by simp
    rw [this]

theorem normAux_clean (l : List String) (h : CleanPath l) (st : List String) :
    normAux st l = st ++ l := by
  have h0 := normAux_append_clean l h st []
  rw [List.append_nil] at h0
  rw [h0]
  rw [normAux]

theorem normAux_pop (n : Nat) :
    ∀ (suffix st rest : List String), suffix.length = n →
      normAux (st ++ suffix) (List.replicate n ".." ++ rest) = normAux st rest := by
  induction n with
  | zero =>
    intro suffix st rest h
    rw [List.length_eq_zero.mp h]
    simp
  | succ n ih =>
    intro suffix st rest h
    rcases List.eq_nil_or_concat suffix with rfl | ⟨q, x, rfl⟩
    · simp at h
    · rw [List.concat_eq_append] at h ⊢
      rw [List.replicate_succ, List.cons_append, normAux_dotdot]
      have hdrop : (st ++ (q ++ [x])).dropLast = st ++ q := by
        rw [← List.append_assoc]
        exact List.dropLast_concat
      rw [hdrop]
      have hq : q.length = n := by
        simp only [List.length_append, List.length_singleton] at h
        omega
      exact ih q st rest hq

theorem pathRelative_spec (src : AbsPath) :
    ∀ (tgt : AbsPath) (st : List String), CleanPath src → CleanPath tgt →
      normAux st (src ++ pathRelative src tgt) = st ++ tgt := by
  induction src with
  | nil =>
    intro tgt st _ htgt
    rw [List.nil_append, show pathRelative [] tgt = tgt from rfl]
    exact normAux_clean tgt htgt st
  | cons a as ih =>
    intro tgt st hsrc htgt
    have hsrc' : CleanPath as := fun s hs => hsrc s (List.mem_cons_of_mem a hs)
    cases tgt with
    | nil =>
      rw [show pathRelative (a :: as) [] = List.replicate (a :: as).length ".." from rfl]
      rw [normAux_append_clean (a :: as) hsrc st]
      have h0 := normAux_pop (a :: as).length (a :: as) st [] rfl
      rw [List.append_nil] at h0
      rw [h0, normAux, List.append_nil]
    | cons b bs =>
      have htgt' : CleanPath bs := fun s hs => htgt s (List.mem_cons_of_mem b hs)
      by_cases hab : a = b
      · rw [show pathRelative (a :: as) (b :: bs) = pathRelative as bs from by
          rw [show pathRelative (a :: as) (b :: bs) =
            if a = b then pathRelative as bs
            else List.replicate (a :: as).length ".." ++ (b :: bs) from rfl, if_pos hab]]
        have hstep : (a :: as) ++ pathRelative as bs = [a] ++ (as ++ pathRelative as bs) := by
          simp
        rw [hstep]
        rw [normAux_append_clean [a] (fun s hs => by
          rcases List.mem_singleton.mp hs with rfl
          exact hsrc s (List.mem_cons_self s as)) st]
        rw [ih bs (st ++ [a]) hsrc' htgt']
        simp [hab]
      · rw [show pathRelative (a :: as) (b :: bs) =
            List.replicate (a :: as).length ".." ++ (b :: bs) from by
          rw [show pathRelative (a :: as) (b :: bs) =
            if a = b then pathRelative as bs
            else List.replicate (a :: as).length ".." ++ (b :: bs) from rfl, if_neg hab]]
        rw [normAux_append_clean (a :: as) hsrc st]
        rw [normAux_pop (a :: as).length (a :: as) st (b :: bs) rfl]
        exact normAux_clean (b :: bs) htgt st

theorem pathRelative_ne_nil (src : AbsPath) :
    ∀ tgt : AbsPath, src ≠ tgt → pathRelative src tgt ≠ [] := by
  induction src with
  | nil =>
    intro tgt h
    cases tgt with
    | nil => exact absurd rfl h
    | cons b bs =>
      rw [show pathRelative [] (b :: bs) = b :: bs from rfl]
      simp
  | cons a as ih =>
    intro tgt h
    cases tgt with
    | nil =>
      rw [show pathRelative (a :: as) [] = List.replicate (a :: as).length ".." from rfl]
      simp
    | cons b bs =>
      rw [show pathRelative (a :: as) (b :: bs) =
        if a = b then pathRelative as bs
        else List.replicate (a :: as).length ".." ++ (b :: bs) from rfl]
      by_cases hab : a = b
      · rw [if_pos hab]
        exact ih bs (fun hc => h (by rw [hab, hc]))
      · rw [if_neg hab]
        simp

theorem resolveField_of_saved (baseDir p : AbsPath)
    (hb : CleanPath baseDir) (hp : CleanPath p) (hne : p ≠ baseDir) :
    resolveField baseDir (some (pathRelative baseDir p)) = some p := by
  rw [show resolveField baseDir (some (pathRelative baseDir p)) =
    if pathRelative baseDir p = [] then Option.none
    else some (pathResolve baseDir (pathRelative baseDir p)) from rfl]
  rw [if_neg (pathRelative_ne_nil baseDir p (fun h => hne h.symm))]
  unfold pathResolve
  rw [show normAux [] (baseDir ++ pathRelative baseDir p) = [] ++ p from
    pathRelative_spec baseDir p [] hb hp]
  rw [List.nil_append]

/-- C9: saving a result (all paths made relative to the record's directory)
and then resolving the loaded entry against the same record path reproduces
every original absolute path — single, before, after, and diff-image — and
leaves the comparison verdict intact; `resolvePaths` after `load` is a left
inverse of `save` on the path fields.  Hypotheses: the record directory and
every stored path are normalized absolute paths (no empty, `.` or `..`
segments — the "mod OS path normalization" proviso of the claim), and no
stored image path equals the record directory itself. -/
theorem save_resolve_roundtrip
    (baseDir : AbsPath) (result : PersistResult)
    (hb : CleanPath baseDir)
    (hsp : ∀ p ∈ result.singlePath, CleanPath p ∧ p ≠ baseDir)
    (hbp : ∀ p ∈ result.beforePath, CleanPath p ∧ p ≠ baseDir)
    (hap : ∀ p ∈ result.afterPath, CleanPath p ∧ p ≠ baseDir)
    (hdp : ∀ c ∈ result.comparison, ∀ p ∈ c.diffImagePath, CleanPath p ∧ p ≠ baseDir) :
    (resolveResultEntry baseDir (saveResultEntry baseDir result)).singlePath =
      result.singlePath ∧
    (resolveResultEntry baseDir (saveResultEntry baseDir result)).beforePath =
      result.beforePath ∧
    (resolveResultEntry baseDir (saveResultEntry baseDir result)).afterPath =
      result.afterPath ∧
    (resolveResultEntry baseDir (saveResultEntry baseDir result)).comparison =
      result.comparison := by
  refine ⟨?_, ?_, ?_, ?_⟩
  · show resolveField baseDir (result.singlePath.map (pathRelative baseDir)) =
      result.singlePath
    cases hp : result.singlePath with
    | none => rfl
    | some p =>
      have h := hsp p (by rw [hp]; rfl)
      rw [Option.map_some']
      exact resolveField_of_saved baseDir p hb h.1 h.2
  · show resolveField baseDir (result.beforePath.map (pathRelative baseDir)) =
      result.beforePath
    cases hp : result.beforePath with
    | none => rfl
    | some p =>
      have h := hbp p (by rw [hp]; rfl)
      rw [Option.map_some']
      exact resolveField_of_saved baseDir p hb h.1 h.2
  · show resolveField baseDir (result.afterPath.map (pathRelative baseDir)) =
      result.afterPath
    cases hp : result.afterPath with
    | none => rfl
    | some p =>
      have h := hap p (by rw [hp]; rfl)
      rw [Option.map_some']
      exact resolveField_of_saved baseDir p hb h.1 h.2
  · show ((result.comparison.map
        (fun c : PersistComparison =>
          { c with diffImagePath := c.diffImagePath.map (pathRelative baseDir) })).map
        (fun c : PersistComparison =>
          { c with diffImagePath := resolveField baseDir c.diffImagePath })) =
      result.comparison
    cases hc : result.comparison with
    | none => rfl
    | some c =>
      rcases c with ⟨cdp, ctp, cpc, ccl, cdi, chs⟩
      rw [Option.map_some', Option.map_some']
      have hfield : resolveField baseDir (Option.map (pathRelative baseDir) cdi) = cdi := by
        cases hd : cdi with
        | none => rfl
        | some p =>
          have h := hdp ⟨cdp, ctp, cpc, ccl, cdi, chs⟩ (by rw [hc]; rfl) p (by rw [hd]; rfl)
          rw [Option.map_some']
          exact resolveField_of_saved baseDir p hb h.1 h.2
      simp [hfield]

/-- A concrete in-memory before/after result with all path fields populated,
used to instantiate the round-trip theorem. -/
def persistDemo : PersistResult :=
  { url := "https://example.com"
    timestamp := 0
    singlePath := some ["home", "user", "shots", "single.png"]
    beforePath := some ["home", "user", "shots", "page_before.png"]
    afterPath := some ["home", "user", "shots", "page_after.png"]
    error := Option.none
    comparison := some
      { diffPixels := 1000
        totalPixels := 10000
        diffPercentage := 10
        changeLevel := ChangeLevel.moderate
        diffImagePath := some ["home", "user", "shots", "page_before_diff.png"]
        hasSignificantChange := true } }

theorem save_resolve_roundtrip_witness :
    (CleanPath ["home", "user", "out"] ∧
     (∀ p ∈ persistDemo.singlePath, CleanPath p ∧ p ≠ ["home", "user", "out"]) ∧
     (∀ p ∈ persistDemo.beforePath, CleanPath p ∧ p ≠ ["home", "user", "out"]) ∧
     (∀ p ∈ persistDemo.afterPath, CleanPath p ∧ p ≠ ["home", "user", "out"]) ∧
     (∀ c ∈ persistDemo.comparison, ∀ p ∈ c.diffImagePath,
        CleanPath p ∧ p ≠ ["home", "user", "out"])) ∧
    ((resolveResultEntry ["home", "user", "out"]
        (saveResultEntry ["home", "user", "out"] persistDemo)).singlePath =
      persistDemo.singlePath ∧
     (resolveResultEntry ["home", "user", "out"]
        (saveResultEntry ["home", "user", "out"] persistDemo)).beforePath =
      persistDemo.beforePath ∧
     (resolveResultEntry ["home", "user", "out"]
        (saveResultEntry ["home", "user", "out"] persistDemo)).afterPath =
      persistDemo.afterPath ∧
     (resolveResultEntry ["home", "user", "out"]
        (saveResultEntry ["home", "user", "out"] persistDemo)).comparison =
      persistDemo.comparison) := by
  have h1 : ∀ p ∈ persistDemo.singlePath, CleanPath p ∧ p ≠ ["home", "user", "out"] := by
    intro p hp
    simp only [persistDemo, Option.mem_def, Option.some_inj] at hp
    subst hp
    exact ⟨by decide, by decide⟩
  have h2 : ∀ p ∈ persistDemo.beforePath, CleanPath p ∧ p ≠ ["home", "user", "out"] := by
    intro p hp
    simp only [persistDemo, Option.mem_def, Option.some_inj] at hp
    subst hp
    exact ⟨by decide, by decide⟩
  have h3 : ∀ p ∈ persistDemo.afterPath, CleanPath p ∧ p ≠ ["home", "user", "out"] := by
    intro p hp
    simp only [persistDemo, Option.mem_def, Option.some_inj] at hp
    subst hp
    exact ⟨by decide, by decide⟩
  have h4 : ∀ c ∈ persistDemo.comparison, ∀ p ∈ c.diffImagePath,
      CleanPath p ∧ p ≠ ["home", "user", "out"] := by
    intro c hc p hp
    simp only [persistDemo, Option.mem_def, Option.some_inj] at hc
    subst hc
    simp only [Option.mem_def, Option.some_inj] at hp
    subst hp
    exact ⟨by decide, by decide⟩
  exact ⟨⟨by decide, h1, h2, h3, h4⟩,
    save_resolve_roundtrip ["home", "user", "out"] persistDemo (by decide) h1 h2 h3 h4⟩

/-- C10: the before/after branch of the JSONC writer never emits an `error`
key (for any entry, not just errored ones), and for every result whose
`error` field is a non-empty string, the saved entry carries
`success = false`, keeps the error only in the in-memory object's unserialized
`error` field, and never populates `beforeError` / `afterError`; so after
save followed by load the error text is absent from the persisted
before/after data. -/
theorem saved_error_not_serialized :
    (∀ d : DataFileResult, "error" ∉ serializedKeysBA d) ∧
    (∀ (baseDir : AbsPath) (result : PersistResult) (e : String),
      result.error = some e → e ≠ "" →
      (saveResultEntry baseDir result).success = false ∧
      (saveResultEntry baseDir result).beforeError = Option.none ∧
      (saveResultEntry baseDir result).afterError = Option.none) := by
  constructor
  · intro d hmem
    unfold serializedKeysBA at hmem
    simp only [List.mem_append] at hmem
    rcases hmem with (((h | h) | h) | h)
    · revert h
      decide
    · revert h
      split
      · intro h
        revert h
        decide
      · intro h
        exact (List.not_mem_nil _) h
    · revert h
      split
      · intro h
        revert h
        decide
      · intro h
        exact (List.not_mem_nil _) h
    · revert h
      split
      · rename_i c _
        simp only [List.mem_append]
        rintro (h | h)
        · revert h
          decide
        · revert h
          split
          · intro h
            revert h
            decide
          · intro h
            exact (List.not_mem_nil _) h
      · intro h
        exact (List.not_mem_nil _) h
  · intro baseDir result e he hne
    refine ⟨?_, rfl, rfl⟩
    show (!(truthyStr result.error)) = false
    rw [he]
    show (!(e != "")) = false
    simp [hne]

/-- A concrete before/after result whose capture failed with an error
message. -/
def erroredDemo : PersistResult :=
  { url := "https://example.com"
    timestamp := 0
    error := some "net::ERR_CONNECTION_REFUSED" }

theorem saved_error_not_serialized_witness :
    (erroredDemo.error = some "net::ERR_CONNECTION_REFUSED" ∧
     "net::ERR_CONNECTION_REFUSED" ≠ "") ∧
    "error" ∉ serializedKeysBA (saveResultEntry ["out"] erroredDemo) ∧
    ((saveResultEntry ["out"] erroredDemo).success = false ∧
     (saveResultEntry ["out"] erroredDemo).beforeError = Option.none ∧
     (saveResultEntry ["out"] erroredDemo).afterError = Option.none) :=
  ⟨⟨rfl, by decide⟩,
   saved_error_not_serialized.1 (saveResultEntry ["out"] erroredDemo),
   saved_error_not_serialized.2 ["out"] erroredDemo "net::ERR_CONNECTION_REFUSED"
     rfl (by decide)⟩
